import Mathlib

/-!
Verification of the berlin_flat_finder listing-matching pipeline.

The definitions below are a shallow embedding of the Python sketch in
`POC_Scope.md` (classes `UserPreferenceEngine`, `OptimizedMatcher`,
`UserNotificationSystem`, `GlobalListingMonitor`).  Numeric fields use `ℚ`
so the weighted-score arithmetic (`price_score * 0.3`, divisions) is exact.
Tri-state amenity flags (true / false / unspecified) are `Option Bool`,
with `none` for the SQL `null` / unspecified case.

Helper predicates whose bodies do not appear in the repository
(`price_in_range`, `location_matches`, `size_matches`,
`additional_criteria_match`, `count_amenity_matches`, and the change
detector's dedup logic) are modelled from the specification text and are
marked as such in their doc comments.
-/

namespace FlatFinder

/-- A normalized rental listing, following the `listings` table schema and the
fields accessed by `UserPreferenceEngine` (`price`, `rooms`, `size_sqm`,
`district`, tri-state amenity flags). -/
structure Listing where
  external_id : String
  price : ℚ
  rooms : ℚ
  size_sqm : ℤ
  district : String
  pet_friendly : Option Bool
  balcony : Option Bool
  furnished : Option Bool
deriving Repr, DecidableEq

/-- A user preference record, following the `user_preferences` table schema and
the fields accessed by `UserPreferenceEngine`, `OptimizedMatcher` and
`UserNotificationSystem`.  The preferred-district set is tiered into
`top_preferred_districts` and `acceptable_districts` as used by
`calculate_match_score`. -/
structure UserPreference where
  user_id : ℕ
  price_min : ℚ
  price_max : ℚ
  ideal_price : Option ℚ
  top_preferred_districts : List String
  acceptable_districts : List String
  min_rooms : Option ℚ
  max_rooms : Option ℚ
  ideal_rooms : Option ℚ
  min_size_sqm : Option ℤ
  pet_friendly : Option Bool
  balcony_required : Option Bool
  furnished : Option Bool
  auto_apply : Bool
  auto_apply_threshold : ℚ
  notification_methods : List String
deriving Repr, DecidableEq

/-- The untiered preferred-district set (`preferences.preferred_districts`) used
by `listing_matches_preferences` and by the district index: the union of the
top-preferred and acceptable tiers. -/
def preferred_districts (p : UserPreference) : List String :=
  p.top_preferred_districts ++ p.acceptable_districts

/-- Modelled from the spec: the body of `UserPreferenceEngine.price_in_range` is
absent from the repository (only its call site exists); the spec's hard filter
reads "price outside [min,max]" excludes, so in-range means
`min ≤ price ≤ max`. -/
def price_in_range (price pmin pmax : ℚ) : Bool :=
  decide (pmin ≤ price) && decide (price ≤ pmax)

/-- Modelled from the spec: the body of `UserPreferenceEngine.location_matches`
is absent from the repository (only its call site
`location_matches(listing.location, preferences.preferred_districts)` exists);
membership of the listing's district in the preferred-district set, matching
the district index lookup in `OptimizedMatcher.get_candidate_users`. -/
def location_matches (district : String) (districts : List String) : Bool :=
  decide (district ∈ districts)

/-- Modelled from the spec: the body of `UserPreferenceEngine.size_matches` is
absent from the repository (only its call site exists); the spec's hard
filters read "rooms below min_rooms or above max_rooms when both set; size
below min_size_sqm". -/
def size_matches (rooms : ℚ) (size : ℤ) (p : UserPreference) : Bool :=
  (match p.min_rooms, p.max_rooms with
   | some lo, some hi => decide (lo ≤ rooms) && decide (rooms ≤ hi)
   | _, _ => true)
  && (match p.min_size_sqm with
      | some s => decide (s ≤ size)
      | none => true)

/-- One tri-state amenity of the hard filter.  Modelled from the spec: "any
amenity where preference requires true/false and listing states the opposite
(unspecified on either side never excludes)". -/
def amenity_ok (pref listing : Option Bool) : Bool :=
  match pref, listing with
  | some b, some c => b == c
  | _, _ => true

/-- Modelled from the spec: the body of
`UserPreferenceEngine.additional_criteria_match` is absent from the repository
(only its call site exists); it checks the three tri-state amenity flags
(pet-friendly, balcony, furnished) under the rule that an unspecified side
never excludes. -/
def additional_criteria_match (l : Listing) (p : UserPreference) : Bool :=
  amenity_ok p.pet_friendly l.pet_friendly
  && amenity_ok p.balcony_required l.balcony
  && amenity_ok p.furnished l.furnished

/-- Embedding of `UserPreferenceEngine.listing_matches_preferences`: the four
sequential hard filters (price range, location, size, additional criteria);
any failing check returns false. -/
def listing_matches_preferences (l : Listing) (p : UserPreference) : Bool :=
  price_in_range l.price p.price_min p.price_max
  && location_matches l.district (preferred_districts p)
  && size_matches l.rooms l.size_sqm p
  && additional_criteria_match l p

/-- One tri-state amenity of the bonus count.  Modelled from the spec: "5
points per satisfied optional amenity match" — the preference states a value
and the listing states the same value. -/
def amenity_satisfied (pref listing : Option Bool) : Bool :=
  match pref, listing with
  | some b, some c => b == c
  | _, _ => false

/-- Modelled from the spec: the body of
`UserPreferenceEngine.count_amenity_matches` is absent from the repository
(only its call site exists); the number of satisfied optional amenity matches
among the three amenity flags. -/
def count_amenity_matches (l : Listing) (p : UserPreference) : ℕ :=
  (if amenity_satisfied p.pet_friendly l.pet_friendly then 1 else 0)
  + (if amenity_satisfied p.balcony_required l.balcony then 1 else 0)
  + (if amenity_satisfied p.furnished l.furnished then 1 else 0)

/-- Python's two-argument `max`, used as `max(0, ...)` in
`calculate_match_score`; written with an explicit conditional so it is
definitionally computable (it agrees with `max`, see `pymax_eq_max`). -/
def pymax (a b : ℚ) : ℚ :=
  if a ≤ b then b else a

/-- Python's two-argument `min`, used as `min(100, score)` in
`calculate_match_score`; written with an explicit conditional so it is
definitionally computable (it agrees with `min`, see `pymin_eq_min`). -/
def pymin (a b : ℚ) : ℚ :=
  if a ≤ b then a else b

/-- Python's `abs`, used as `abs(listing.price - preferences.ideal_price)` in
`calculate_match_score`; written with an explicit conditional so it is
definitionally computable (it agrees with `|·|`, see `pyabs_eq_abs`). -/
def pyabs (a : ℚ) : ℚ :=
  if 0 ≤ a then a else -a

/-- The price term of `calculate_match_score`: when `preferences.ideal_price`
is set, `max(0, 100 - abs(price - ideal_price) / ideal_price * 100) * 0.3`
is added to the score; when unset, the branch is skipped and nothing is
added. -/
def price_fit_component (l : Listing) (p : UserPreference) : ℚ :=
  match p.ideal_price with
  | some ip => pymax 0 (100 - pyabs (l.price - ip) / ip * 100) * (3 / 10)
  | none => 0

/-- The district term of `calculate_match_score`: 30 for a top-preferred
district, else 15 for an acceptable district, else 0. -/
def district_component (l : Listing) (p : UserPreference) : ℚ :=
  if l.district ∈ p.top_preferred_districts then 30
  else if l.district ∈ p.acceptable_districts then 15
  else 0

/-- The room term of `calculate_match_score`: 20 when `ideal_rooms` is set and
the listing's room count equals it exactly, else 0. -/
def room_component (l : Listing) (p : UserPreference) : ℚ :=
  match p.ideal_rooms with
  | some ir => if l.rooms = ir then 20 else 0
  | none => 0

/-- The amenity term of `calculate_match_score`:
`amenity_matches * 5` with no intermediate cap in the code. -/
def amenity_bonus (l : Listing) (p : UserPreference) : ℚ :=
  (count_amenity_matches l p : ℚ) * 5

/-- Embedding of `UserPreferenceEngine.calculate_match_score`: the sum of the
four weighted terms, finally `min(100, score)`. -/
def calculate_match_score (l : Listing) (p : UserPreference) : ℚ :=
  pymin 100 (price_fit_component l p + district_component l p
    + room_component l p + amenity_bonus l p)

/-- The per-pair outcome of `UserPreferenceEngine.find_matching_users`, which
realizes the contract `score(listing, preference) -> score or excluded`:
a score is computed only for pairs that pass `listing_matches_preferences`;
`none` is the "excluded" outcome. -/
def score_result (l : Listing) (p : UserPreference) : Option ℚ :=
  if listing_matches_preferences l p then some (calculate_match_score l p)
  else none

/-- The per-user price-index test of `OptimizedMatcher.get_candidate_users`:
the user is in the bucket `"{price_min}-{price_max}"` and the lookup accepts
the bucket when `min_price <= listing.price <= max_price`. -/
def price_index_match (l : Listing) (p : UserPreference) : Bool :=
  decide (p.price_min ≤ l.price) && decide (l.price ≤ p.price_max)

/-- The per-user district-index test of `OptimizedMatcher.get_candidate_users`:
`OptimizedMatcher.build_user_indexes` registers the user under every district
in `user.preferred_districts`, and the lookup accepts users registered under
`listing.district`. -/
def district_index_match (l : Listing) (p : UserPreference) : Bool :=
  decide (l.district ∈ preferred_districts p)

/-- Embedding of `OptimizedMatcher.get_candidate_users` over the indexed user
set: the union of the price-index hits and the district-index hits. -/
def get_candidate_users (users : List UserPreference) (l : Listing) : List ℕ :=
  (users.filter (fun p => price_index_match l p || district_index_match l p)).map
    (fun p => p.user_id)

/-- The intents emitted by `UserNotificationSystem.notify_user_of_match` for
one (user, match) pair: the per-channel notification intents and the
auto-application intent. -/
structure DispatchIntents where
  email : Bool
  push : Bool
  sms : Bool
  application : Bool
deriving Repr, DecidableEq

/-- Embedding of `UserNotificationSystem.notify_user_of_match`: an email
(resp. push) notification is sent when the channel is in the user's
`notification_methods`; an SMS additionally requires `match_score > 80`;
the auto-application is triggered when `auto_apply` is enabled and
`match_score >= auto_apply_threshold`. -/
def notify_user_of_match (p : UserPreference) (match_score : ℚ) : DispatchIntents where
  email := decide ("email" ∈ p.notification_methods)
  push := decide ("push" ∈ p.notification_methods)
  sms := decide ("sms" ∈ p.notification_methods) && decide (80 < match_score)
  application := p.auto_apply && decide (p.auto_apply_threshold ≤ match_score)

/-- A raw listing record as observed by the Change Detector, with the
fields entering the content hash. -/
structure RawListing where
  external_id : String
  price : ℚ
  rooms : ℚ
  size_sqm : ℤ
  district : String
deriving Repr, DecidableEq

/-- The content-hash codomain: the (price, rooms, size, district) tuple. -/
abbrev ContentHash : Type := ℚ × ℚ × ℤ × String

/-- Modelled from the spec: the Change Detector's second-stage content hash
over (price, rooms, size, district). -/
def content_hash (r : RawListing) : ContentHash :=
  (r.price, r.rooms, r.size_sqm, r.district)

/-- The dedup store of the Change Detector: a per-external_id "seen" marker
carrying the last observed content hash. -/
abbrev SeenStore : Type := List (String × ContentHash)

/-- Lookup of the seen marker for an external_id (most recent entry wins). -/
def seen_lookup : SeenStore → String → Option ContentHash
  | [], _ => none
  | (k, h) :: rest, x => if k = x then some h else seen_lookup rest x

/-- An emission of the Change Detector: a new-insert event or an update
event (a materially changed re-sighting). -/
inductive Emission where
  | new : RawListing → Emission
  | update : RawListing → Emission
deriving Repr, DecidableEq

/-- Modelled from the spec: the Change Detector body (`change_detector.py`)
is absent from the repository (`GlobalListingMonitor` only holds its
`seen_listings` state).  Per §4.1: an unseen external_id is emitted as
"new" and recorded; a seen external_id with an unchanged content hash is
dropped silently; a seen external_id with a changed content hash is
re-emitted as an update (not a new-insert event) and the hash is
re-recorded. -/
def detect_one (store : SeenStore) (r : RawListing) : Option Emission × SeenStore :=
  match seen_lookup store r.external_id with
  | none => (some (Emission.new r), (r.external_id, content_hash r) :: store)
  | some h =>
    if h = content_hash r then (none, store)
    else (some (Emission.update r), (r.external_id, content_hash r) :: store)

/-- Modelled from the spec: `detectNew(batch: sequence of RawListing) ->
sequence of Listing` (new or materially changed only), folding `detect_one`
over the batch while threading the dedup store. -/
def detectNew (store : SeenStore) : List RawListing → List Emission × SeenStore
  | [] => ([], store)
  | r :: rest =>
    ((detect_one store r).1.toList ++ (detectNew (detect_one store r).2 rest).1,
     (detectNew (detect_one store r).2 rest).2)

/-- Whether an emission reports external_id `x` as a new-insert event. -/
def is_new_for (x : String) : Emission → Bool
  | Emission.new r => decide (r.external_id = x)
  | Emission.update _ => false

/-- How many times external_id `x` is emitted as "new" in an emission
sequence. -/
def newCount (x : String) (es : List Emission) : ℕ :=
  es.countP (is_new_for x)

/-- The scenario listing of §8: {price=1000, rooms=2, district="Mitte"}. -/
def listingC6 : Listing :=
  { external_id := "L1", price := 1000, rooms := 2, size_sqm := 50,
    district := "Mitte", pet_friendly := none, balcony := none,
    furnished := none }

/-- The scenario preference A of §8: price 900–1100, ideal 1000, top
district "Mitte", ideal rooms 2. -/
def prefA : UserPreference :=
  { user_id := 1, price_min := 900, price_max := 1100,
    ideal_price := some 1000, top_preferred_districts := ["Mitte"],
    acceptable_districts := [], min_rooms := none, max_rooms := none,
    ideal_rooms := some 2, min_size_sqm := none, pet_friendly := none,
    balcony_required := none, furnished := none, auto_apply := false,
    auto_apply_threshold := 80, notification_methods := ["email"] }

/-- The scenario preference B of §8: price range 1200–1500, nothing else
set. -/
def prefB : UserPreference :=
  { user_id := 2, price_min := 1200, price_max := 1500, ideal_price := none,
    top_preferred_districts := [], acceptable_districts := [],
    min_rooms := none, max_rooms := none, ideal_rooms := none,
    min_size_sqm := none, pet_friendly := none, balcony_required := none,
    furnished := none, auto_apply := false, auto_apply_threshold := 80,
    notification_methods := ["email"] }

/-- A listing that passes every hard filter of `prefNoIdeal` below. -/
def listingPlain : Listing :=
  { external_id := "L2", price := 1000, rooms := 2, size_sqm := 60,
    district := "Mitte", pet_friendly := none, balcony := none,
    furnished := none }

/-- A preference with no `ideal_price`, otherwise matching `listingPlain`. -/
def prefNoIdeal : UserPreference :=
  { user_id := 3, price_min := 500, price_max := 1500, ideal_price := none,
    top_preferred_districts := ["Mitte"], acceptable_districts := [],
    min_rooms := none, max_rooms := none, ideal_rooms := none,
    min_size_sqm := none, pet_friendly := none, balcony_required := none,
    furnished := none, auto_apply := false, auto_apply_threshold := 80,
    notification_methods := ["email"] }

/-- A listing in a district ("Spandau") listed by no tier of
`prefDistricts`, passing every other hard filter of that preference. -/
def listingElsewhere : Listing :=
  { external_id := "L3", price := 1000, rooms := 2, size_sqm := 60,
    district := "Spandau", pet_friendly := none, balcony := none,
    furnished := none }

/-- A preference whose district tiers are "Mitte" (top) and "Wedding"
(acceptable), with a wide price range and no other constraint. -/
def prefDistricts : UserPreference :=
  { user_id := 4, price_min := 500, price_max := 1500, ideal_price := none,
    top_preferred_districts := ["Mitte"], acceptable_districts := ["Wedding"],
    min_rooms := none, max_rooms := none, ideal_rooms := none,
    min_size_sqm := none, pet_friendly := none, balcony_required := none,
    furnished := none, auto_apply := false, auto_apply_threshold := 80,
    notification_methods := ["email"] }

/-- A user with auto-apply enabled at the default threshold 80 and the
email channel configured. -/
def userAutoApply : UserPreference :=
  { user_id := 5, price_min := 500, price_max := 1500, ideal_price := none,
    top_preferred_districts := [], acceptable_districts := [],
    min_rooms := none, max_rooms := none, ideal_rooms := none,
    min_size_sqm := none, pet_friendly := none, balcony_required := none,
    furnished := none, auto_apply := true, auto_apply_threshold := 80,
    notification_methods := ["email"] }

/-- A user whose notification channels are email and SMS. -/
def userSms : UserPreference :=
  { user_id := 6, price_min := 500, price_max := 1500, ideal_price := none,
    top_preferred_districts := [], acceptable_districts := [],
    min_rooms := none, max_rooms := none, ideal_rooms := none,
    min_size_sqm := none, pet_friendly := none, balcony_required := none,
    furnished := none, auto_apply := false, auto_apply_threshold := 80,
    notification_methods := ["email", "sms", "push"] }

/-- A raw listing for the Change Detector scenario (external_id "X123"). -/
def rawX123 : RawListing :=
  { external_id := "X123", price := 1000, rooms := 2, size_sqm := 50,
    district := "Mitte" }

/-- A dedup store that has already observed `rawX123` with its current
content hash. -/
def seenX : SeenStore :=
  [("X123", content_hash rawX123)]

/-- The conditional `pymax` agrees with the lattice `max` on `ℚ`. -/
theorem pymax_eq_max (a b : ℚ) : pymax a b = max a b := by
  rw [pymax, max_def]

/-- The conditional `pymin` agrees with the lattice `min` on `ℚ`. -/
theorem pymin_eq_min (a b : ℚ) : pymin a b = min a b := by
  rw [pymin, min_def]

/-- The conditional `pyabs` agrees with the absolute value on `ℚ`. -/
theorem pyabs_eq_abs (a : ℚ) : pyabs a = |a| := by
  unfold pyabs
  split_ifs with h
  · exact (abs_of_nonneg h).symm
  · exact (abs_of_neg (lt_of_not_le h)).symm

/-- The first argument is a lower bound of `pymax`. -/
theorem le_pymax_left (a b : ℚ) : a ≤ pymax a b := by
  unfold pymax
  split_ifs with h
  · exact h
  · exact le_refl a

/-- `pymin` is bounded by its first argument. -/
theorem pymin_le_left (a b : ℚ) : pymin a b ≤ a := by
  unfold pymin
  split_ifs with h
  · exact le_refl a
  · exact le_of_not_le h

/-- `pymin` of two nonnegative rationals is nonnegative. -/
theorem zero_le_pymin {a b : ℚ} (ha : 0 ≤ a) (hb : 0 ≤ b) : 0 ≤ pymin a b := by
  unfold pymin
  split_ifs
  · exact ha
  · exact hb

/-- The price term of the score is never negative. -/
theorem price_fit_component_nonneg (l : Listing) (p : UserPreference) :
    0 ≤ price_fit_component l p := by
  unfold price_fit_component
  cases p.ideal_price with
  | none => exact le_refl 0
  | some ip => exact mul_nonneg (le_pymax_left 0 _) (by norm_num)

/-- The district term of the score is never negative. -/
theorem district_component_nonneg (l : Listing) (p : UserPreference) :
    0 ≤ district_component l p := by
  unfold district_component
  split_ifs <;> norm_num

/-- The room term of the score is never negative. -/
theorem room_component_nonneg (l : Listing) (p : UserPreference) :
    0 ≤ room_component l p := by
  unfold room_component
  cases p.ideal_rooms with
  | none => exact le_refl 0
  | some ir =>
    show (0 : ℚ) ≤ if l.rooms = ir then 20 else 0
    split_ifs <;> norm_num

/-- The amenity term of the score is never negative. -/
theorem amenity_bonus_nonneg (l : Listing) (p : UserPreference) :
    0 ≤ amenity_bonus l p := by
  unfold amenity_bonus
  positivity

/-- C2: for every (listing, preference) pair, the scoring operation either
reports the pair as excluded (`score_result = none`, no score computed) or
returns a score within [0, 100]. -/
theorem score_result_within_bounds (l : Listing) (p : UserPreference) (s : ℚ)
    (h : score_result l p = some s) : 0 ≤ s ∧ s ≤ 100 := by
  rw [score_result] at h
  split at h
  · injection h with h2
    subst h2
    unfold calculate_match_score
    refine ⟨?_, pymin_le_left 100 _⟩
    have h0 : 0 ≤ price_fit_component l p + district_component l p
        + room_component l p + amenity_bonus l p :=
      add_nonneg (add_nonneg (add_nonneg (price_fit_component_nonneg l p)
        (district_component_nonneg l p)) (room_component_nonneg l p))
        (amenity_bonus_nonneg l p)
    exact zero_le_pymin (by norm_num) h0
  · exact Option.noConfusion h

/-- Evaluation of the §8 scenario: (listingC6, prefA) passes the hard
filters and scores 30 (price) + 30 (district) + 20 (rooms) + 0 (amenities)
= 80. -/
theorem score_eval_prefA : score_result listingC6 prefA = some 80 := by
  norm_num [score_result, listing_matches_preferences, price_in_range,
    location_matches, size_matches, additional_criteria_match, amenity_ok,
    preferred_districts, calculate_match_score, price_fit_component,
    district_component, room_component, amenity_bonus, count_amenity_matches,
    amenity_satisfied, pymin, pymax, pyabs, listingC6, prefA]

/-- Witness for C2: the scenario pair (listingC6, prefA) is scored `some 80`,
and the bound theorem applies to it. -/
theorem score_result_within_bounds_witness : (0 : ℚ) ≤ 80 ∧ (80 : ℚ) ≤ 100 :=
  score_result_within_bounds listingC6 prefA 80 score_eval_prefA

/-- C3 counterexample: a non-excluded pair whose preference has no
`ideal_price`; the price term of `calculate_match_score` is 0, not the flat
neutral 30 that the claim states. -/
theorem price_fit_neutral_counterexample :
    listing_matches_preferences listingPlain prefNoIdeal = true
    ∧ prefNoIdeal.ideal_price = none
    ∧ price_fit_component listingPlain prefNoIdeal = 0
    ∧ price_fit_component listingPlain prefNoIdeal ≠ 30 := by
  decide

/-- C3 amended: when the preference has no `ideal_price`, the price term of
`calculate_match_score` contributes 0 (the `if preferences.ideal_price`
branch is skipped), not a neutral 30. -/
theorem price_fit_component_zero_of_no_ideal (l : Listing) (p : UserPreference)
    (h : p.ideal_price = none) : price_fit_component l p = 0 := by
  simp [price_fit_component, h]

/-- Witness for the amended C3: at (listingPlain, prefNoIdeal) the price
term evaluates to 0. -/
theorem price_fit_component_zero_of_no_ideal_witness :
    price_fit_component listingPlain prefNoIdeal = 0 :=
  price_fit_component_zero_of_no_ideal listingPlain prefNoIdeal rfl

/-- The amenity-match count ranges over three tri-state flags, so it is at
most 3. -/
theorem count_amenity_matches_le_three (l : Listing) (p : UserPreference) :
    count_amenity_matches l p ≤ 3 := by
  unfold count_amenity_matches
  split_ifs <;> omega

/-- C4: the amenity term of the score is 5 points per satisfied optional
amenity and never exceeds 20 (with three amenity flags it is in fact at most
15, so the 20-point cap never binds). -/
theorem amenity_bonus_capped (l : Listing) (p : UserPreference) :
    amenity_bonus l p = (count_amenity_matches l p : ℚ) * 5
    ∧ amenity_bonus l p ≤ 20 := by
  refine ⟨rfl, ?_⟩
  unfold amenity_bonus
  have h3 : (count_amenity_matches l p : ℚ) ≤ 3 := by
    exact_mod_cast count_amenity_matches_le_three l p
  linarith

/-- C6 counterexample: the §8 scenario pair (listingC6, prefA) does not
score 100: the amenity term contributes 0 for a preference with no amenity
requirements, so the total is 30 + 30 + 20 + 0 = 80. -/
theorem scenario_score_counterexample :
    score_result listingC6 prefA ≠ some 100 := by
  rw [score_eval_prefA]
  simp

/-- C6 amended: the scenario pair (listingC6, prefA) is non-excluded with
score exactly 80, and (listingC6, prefB) is excluded with no score
computed. -/
theorem scenario_scores :
    score_result listingC6 prefA = some 80
    ∧ score_result listingC6 prefB = none :=
  ⟨score_eval_prefA, by decide⟩

/-- C1: the candidate lookup is conservative: every user whose preference
passes the exact hard filters of `listing_matches_preferences` appears in
`get_candidate_users` (the price-index hit alone already guarantees it). -/
theorem get_candidate_users_superset (users : List UserPreference)
    (l : Listing) (p : UserPreference) (hmem : p ∈ users)
    (hmatch : listing_matches_preferences l p = true) :
    p.user_id ∈ get_candidate_users users l := by
  simp only [listing_matches_preferences, Bool.and_eq_true] at hmatch
  have hpr : price_index_match l p = true := hmatch.1.1.1
  simp only [get_candidate_users, List.mem_map]
  exact ⟨p, List.mem_filter.mpr ⟨hmem, by simp [hpr]⟩, rfl⟩

/-- Witness for C1: prefA passes the exact filters for listingC6, so user 1
is among the candidates drawn from the user set [prefA, prefB]. -/
theorem get_candidate_users_superset_witness :
    prefA.user_id ∈ get_candidate_users [prefA, prefB] listingC6 :=
  get_candidate_users_superset [prefA, prefB] listingC6 prefA
    (List.mem_cons_self prefA [prefB]) (by decide)

/-- C5 counterexample: a listing whose district ("Spandau") is in neither
tier of the preference passes every other hard filter yet is excluded
(`score_result = none`), not scored: the location check of
`listing_matches_preferences` is a hard exclusion filter. -/
theorem district_hard_filter_counterexample :
    listingElsewhere.district ∉ prefDistricts.top_preferred_districts
    ∧ listingElsewhere.district ∉ prefDistricts.acceptable_districts
    ∧ price_in_range listingElsewhere.price prefDistricts.price_min
        prefDistricts.price_max = true
    ∧ size_matches listingElsewhere.rooms listingElsewhere.size_sqm
        prefDistricts = true
    ∧ additional_criteria_match listingElsewhere prefDistricts = true
    ∧ score_result listingElsewhere prefDistricts = none := by
  decide

/-- C5 amended: a listing whose district appears in neither the
top-preferred nor the acceptable districts fails the location hard filter of
`listing_matches_preferences` and is excluded (never scored). -/
theorem excluded_of_unlisted_district (l : Listing) (p : UserPreference)
    (h1 : l.district ∉ p.top_preferred_districts)
    (h2 : l.district ∉ p.acceptable_districts) :
    score_result l p = none := by
  have hloc : location_matches l.district (preferred_districts p) = false := by
    simp [location_matches, preferred_districts, h1, h2]
  simp [score_result, listing_matches_preferences, hloc]

/-- Witness for the amended C5: the Spandau listing is excluded against
prefDistricts. -/
theorem excluded_of_unlisted_district_witness :
    score_result listingElsewhere prefDistricts = none :=
  excluded_of_unlisted_district listingElsewhere prefDistricts
    (by decide) (by decide)

/-- C7: for a user with auto-apply enabled, an application intent is emitted
if and only if the match score reaches the user's threshold; notification
intents (here the email channel) are emitted independently of it. -/
theorem auto_apply_intent_iff (p : UserPreference) (s : ℚ)
    (h : p.auto_apply = true) :
    ((notify_user_of_match p s).application = true
      ↔ p.auto_apply_threshold ≤ s)
    ∧ ((notify_user_of_match p s).email = true
      ↔ "email" ∈ p.notification_methods) := by
  simp [notify_user_of_match, h]

/-- Witness for C7: with threshold 80, a score of exactly 80 triggers the
application intent, and a score of 79 still produces the email notification
intent. -/
theorem auto_apply_intent_iff_witness :
    (notify_user_of_match userAutoApply 80).application = true
    ∧ (notify_user_of_match userAutoApply 79).email = true :=
  ⟨(auto_apply_intent_iff userAutoApply 80 rfl).1.mpr (le_refl 80),
   (auto_apply_intent_iff userAutoApply 79 rfl).2.mpr (by decide)⟩

/-- An unspecified preference amenity never fails the hard amenity check,
whatever the listing states. -/
theorem amenity_ok_none_left (x : Option Bool) : amenity_ok none x = true := by
  cases x <;> rfl

/-- C9: when the preference leaves an amenity unspecified, varying the
listing's corresponding amenity (true / false / unspecified) never changes
the exclusion outcome of `listing_matches_preferences`. -/
theorem amenity_neutrality (l : Listing) (p : UserPreference)
    (v : Option Bool) :
    (p.pet_friendly = none →
      listing_matches_preferences { l with pet_friendly := v } p
        = listing_matches_preferences l p)
    ∧ (p.balcony_required = none →
      listing_matches_preferences { l with balcony := v } p
        = listing_matches_preferences l p)
    ∧ (p.furnished = none →
      listing_matches_preferences { l with furnished := v } p
        = listing_matches_preferences l p) := by
  refine ⟨fun h => ?_, fun h => ?_, fun h => ?_⟩ <;>
    simp [listing_matches_preferences, additional_criteria_match,
      amenity_ok_none_left, h]

/-- Witness for C9: prefNoIdeal has no pet-friendly requirement, so setting
pet-friendliness on listingPlain leaves the exclusion outcome unchanged. -/
theorem amenity_neutrality_witness :
    listing_matches_preferences
        { listingPlain with pet_friendly := some true } prefNoIdeal
      = listing_matches_preferences listingPlain prefNoIdeal :=
  (amenity_neutrality listingPlain prefNoIdeal (some true)).1 rfl

/-- C10: for a user whose channels include SMS, the SMS intent is emitted
exactly when the match score strictly exceeds 80; at a score of 80 or below
the SMS channel is skipped while the email and push channels follow the
user's channel set as usual. -/
theorem sms_threshold_gate (p : UserPreference) (s : ℚ)
    (h : "sms" ∈ p.notification_methods) :
    ((notify_user_of_match p s).sms = true ↔ 80 < s)
    ∧ (s ≤ 80 →
      (notify_user_of_match p s).sms = false
      ∧ ((notify_user_of_match p s).email = true
          ↔ "email" ∈ p.notification_methods)
      ∧ ((notify_user_of_match p s).push = true
          ↔ "push" ∈ p.notification_methods)) := by
  constructor
  · simp [notify_user_of_match, h]
  · intro hle
    have hnot : ¬ (80 < s) := not_lt.mpr hle
    exact ⟨by simp [notify_user_of_match, h, hnot],
      by simp [notify_user_of_match], by simp [notify_user_of_match]⟩

/-- Witness for C10: at a score of exactly 80, userSms gets no SMS intent
while the email and push channels behave per the channel set. -/
theorem sms_threshold_gate_witness :
    (notify_user_of_match userSms 80).sms = false
    ∧ ((notify_user_of_match userSms 80).email = true
        ↔ "email" ∈ userSms.notification_methods)
    ∧ ((notify_user_of_match userSms 80).push = true
        ↔ "push" ∈ userSms.notification_methods) :=
  (sms_threshold_gate userSms 80 (by decide)).2 (le_refl 80)

/-- If `detect_one` emits a new-insert event, the external_id was unseen in
the store and the emitted record is the processed one. -/
theorem detect_one_new_imp (store : SeenStore) (r r2 : RawListing)
    (h : (detect_one store r).1 = some (Emission.new r2)) :
    seen_lookup store r.external_id = none ∧ r2 = r := by
  cases hl : seen_lookup store r.external_id with
  | none =>
    simp only [detect_one, hl] at h
    injection h with h2
    injection h2 with h3
    exact ⟨rfl, h3.symm⟩
  | some hsh =>
    simp only [detect_one, hl] at h
    split_ifs at h with hh
    all_goals simp at h

/-- `detect_one` never removes a seen marker. -/
theorem detect_one_preserves_key (store : SeenStore) (r : RawListing)
    (x : String) (h : (seen_lookup store x).isSome) :
    (seen_lookup (detect_one store r).2 x).isSome := by
  cases hl : seen_lookup store r.external_id with
  | none =>
    simp only [detect_one, hl, seen_lookup]
    split_ifs with he
    · simp
    · exact h
  | some hsh =>
    simp only [detect_one, hl]
    split_ifs with hh
    · exact h
    · simp only [seen_lookup]
      split_ifs with he
      · simp
      · exact h

/-- After `detect_one` processes a record, its external_id carries a seen
marker. -/
theorem detect_one_has_key (store : SeenStore) (r : RawListing) :
    (seen_lookup (detect_one store r).2 r.external_id).isSome := by
  cases hl : seen_lookup store r.external_id with
  | none =>
    simp [detect_one, hl, seen_lookup]
  | some hsh =>
    simp only [detect_one, hl]
    split_ifs with hh
    · simp [hl]
    · simp [seen_lookup]

/-- A record processed against a store already holding a seen marker for
`x` never yields a new-insert emission for `x`. -/
theorem countP_toList_new_eq_zero (store : SeenStore) (r : RawListing)
    (x : String) (h : (seen_lookup store x).isSome) :
    List.countP (is_new_for x) (detect_one store r).1.toList = 0 := by
  cases he : (detect_one store r).1 with
  | none => rfl
  | some e =>
    cases e with
    | update r2 => simp [is_new_for]
    | new r2 =>
      obtain ⟨hnone, hrr⟩ := detect_one_new_imp store r r2 he
      subst hrr
      by_cases hx : r2.external_id = x
      · rw [hx] at hnone
        rw [hnone] at h
        simp at h
      · simp [is_new_for, hx]

/-- Over a whole batch, an external_id already carrying a seen marker is
never emitted as new, and its marker survives the batch. -/
theorem detectNew_no_new_of_key (store : SeenStore) (batch : List RawListing)
    (x : String) (h : (seen_lookup store x).isSome) :
    newCount x (detectNew store batch).1 = 0
    ∧ (seen_lookup (detectNew store batch).2 x).isSome := by
  induction batch generalizing store with
  | nil => exact ⟨rfl, h⟩
  | cons r rest ih =>
    have hkey1 := detect_one_preserves_key store r x h
    have ihr := ih ((detect_one store r).2) hkey1
    refine ⟨?_, ?_⟩
    · have h1 := countP_toList_new_eq_zero store r x h
      have h2 := ihr.1
      simp only [newCount] at h2 ⊢
      simp only [detectNew, List.countP_append]
      omega
    · simpa only [detectNew] using ihr.2

/-- Over a whole batch, each external_id is emitted as new at most once. -/
theorem detectNew_newCount_le_one (store : SeenStore)
    (batch : List RawListing) (x : String) :
    newCount x (detectNew store batch).1 ≤ 1 := by
  induction batch generalizing store with
  | nil => simp [detectNew, newCount]
  | cons r rest ih =>
    simp only [detectNew, newCount, List.countP_append]
    by_cases hkey : (seen_lookup store x).isSome
    · have h1 := countP_toList_new_eq_zero store r x hkey
      have h2 := (detectNew_no_new_of_key (detect_one store r).2 rest x
        (detect_one_preserves_key store r x hkey)).1
      simp only [newCount] at h2
      omega
    · by_cases hx : r.external_id = x
      · have hkey2 : (seen_lookup (detect_one store r).2 x).isSome := by
          rw [← hx]
          exact detect_one_has_key store r
        have h2 := (detectNew_no_new_of_key (detect_one store r).2 rest x
          hkey2).1
        simp only [newCount] at h2
        have h1 : List.countP (is_new_for x) (detect_one store r).1.toList
            ≤ 1 :=
          le_trans (List.countP_le_length _)
            (by cases (detect_one store r).1 <;> simp)
        omega
      · have h1 : List.countP (is_new_for x) (detect_one store r).1.toList
            = 0 := by
          cases he : (detect_one store r).1 with
          | none => rfl
          | some e =>
            cases e with
            | new r2 =>
              obtain ⟨hnone, hrr⟩ := detect_one_new_imp store r r2 he
              subst hrr
              simp [is_new_for, hx]
            | update r2 => simp [is_new_for]
        have h2 := ih (detect_one store r).2
        simp only [newCount] at h2
        omega

/-- Every external_id occurring in the batch carries a seen marker after
the batch is processed. -/
theorem detectNew_key_of_mem (store : SeenStore) (batch : List RawListing)
    (x : String) (hx : x ∈ batch.map (fun r => r.external_id)) :
    (seen_lookup (detectNew store batch).2 x).isSome := by
  induction batch generalizing store with
  | nil => simp at hx
  | cons r rest ih =>
    simp only [List.map_cons, List.mem_cons] at hx
    rcases hx with h | h
    · have hk : (seen_lookup (detect_one store r).2 x).isSome := by
        rw [h]
        exact detect_one_has_key store r
      have h2 := (detectNew_no_new_of_key (detect_one store r).2 rest x hk).2
      simpa only [detectNew] using h2
    · have h2 := ih (detect_one store r).2 h
      simpa only [detectNew] using h2

/-- An external_id absent from the batch is never emitted at all as new. -/
theorem detectNew_newCount_zero_of_not_mem (store : SeenStore)
    (batch : List RawListing) (x : String)
    (hx : x ∉ batch.map (fun r => r.external_id)) :
    newCount x (detectNew store batch).1 = 0 := by
  induction batch generalizing store with
  | nil => rfl
  | cons r rest ih =>
    simp only [List.map_cons, List.mem_cons, not_or] at hx
    have h1 : List.countP (is_new_for x) (detect_one store r).1.toList
        = 0 := by
      cases he : (detect_one store r).1 with
      | none => rfl
      | some e =>
        cases e with
        | new r2 =>
          obtain ⟨hnone, hrr⟩ := detect_one_new_imp store r r2 he
          subst hrr
          have hne : r2.external_id ≠ x := fun hh => hx.1 hh.symm
          simp [is_new_for, hne]
        | update r2 => simp [is_new_for]
    have h2 := ih (detect_one store r).2 hx.2
    simp only [newCount] at h2 ⊢
    simp only [detectNew, List.countP_append]
    omega

/-- C8: the Change Detector is idempotent: a record whose content hash is
unchanged from its seen marker is dropped silently (no emission, store
untouched), and across processing a batch and then the same batch again,
any external_id is emitted as "new" at most once. -/
theorem change_detector_idempotent (store : SeenStore)
    (batch : List RawListing) (r : RawListing) (x : String)
    (hseen : seen_lookup store r.external_id = some (content_hash r)) :
    detect_one store r = (none, store)
    ∧ newCount x ((detectNew store batch).1
        ++ (detectNew (detectNew store batch).2 batch).1) ≤ 1 := by
  refine ⟨by simp [detect_one, hseen], ?_⟩
  rw [newCount, List.countP_append]
  by_cases hx : x ∈ batch.map (fun rr => rr.external_id)
  · have h1 := detectNew_newCount_le_one store batch x
    have hk := detectNew_key_of_mem store batch x hx
    have h2 := (detectNew_no_new_of_key (detectNew store batch).2 batch x
      hk).1
    simp only [newCount] at h1 h2
    omega
  · have h1 := detectNew_newCount_zero_of_not_mem store batch x hx
    have h2 := detectNew_newCount_zero_of_not_mem (detectNew store batch).2
      batch x hx
    simp only [newCount] at h1 h2
    omega

/-- Witness for C8: a store that has already seen "X123" with its current
hash drops it silently, and processing the batch ["X123"] twice emits it as
new at most once. -/
theorem change_detector_idempotent_witness :
    detect_one seenX rawX123 = (none, seenX)
    ∧ newCount "X123" ((detectNew seenX [rawX123]).1
        ++ (detectNew (detectNew seenX [rawX123]).2 [rawX123]).1) ≤ 1 :=
  change_detector_idempotent seenX [rawX123] rawX123 "X123" (by decide)

end FlatFinder
